import Mathlib

/-!
Shallow embedding of the car-dealership record-keeping backend
(backend/crud.py, backend/file_loader.py, backend/models.py,
backend/schemas.py, backend/main.py).

Conventions of the embedding:
* The relational store is a `DB` value holding the four tables (cars,
  movements, buyers, operations) as lists in insertion order, plus the
  autoincrement counters.  `query(...).first()` becomes `List.find?`.
* Every `db.commit()` / `db.flush()` of the Python code is a potential
  failure point of the storage layer.  Each operation therefore takes an
  `Oracle : Nat → Bool` telling which of its commits succeed; a `false`
  models the commit raising, the raised exception is the `.error` branch
  of the result, and the returned `DB` holds exactly what was committed
  before the failure.  A commit that would violate the UNIQUE constraint
  on cars.vin (models.py line 33) fails with `PErr.integrityError`.
* `datetime` values are opaque year/month/day triples `DT`; the ambient
  `datetime.utcnow()` calls are an explicit clock argument `now`.
* Prices (Python floats parsed from decimal strings) are modelled as `Rat`.
* Python `str.lower` / `str.strip` / `str.isalnum` are modelled for the
  alphabets actually used by the program (ASCII and Cyrillic).
* CSV files are lists of lines; `csv.DictReader` semantics (header row,
  blank rows skipped, short rows padded with `None`, rows longer than the
  header stored under the `None` restkey — on which the Python row
  comprehension `k.strip()` raises AttributeError) are embedded directly.
-/

/-- Python-style lower-casing restricted to the ASCII and Cyrillic
alphabets used by this program (`str.lower`). -/
def pyLowerChar (c : Char) : Char :=
  if 0x41 ≤ c.toNat ∧ c.toNat ≤ 0x5A then Char.ofNat (c.toNat + 0x20)
  else if 0x410 ≤ c.toNat ∧ c.toNat ≤ 0x42F then Char.ofNat (c.toNat + 0x20)
  else if c.toNat = 0x401 then Char.ofNat 0x451
  else c

def pyLower (s : String) : String :=
  ⟨s.data.map pyLowerChar⟩

/-- Whitespace recognised by Python `str.strip`. -/
def pyIsSpace (c : Char) : Bool :=
  c == ' ' || c == '\t' || c == '\n' || c == '\r' || c.toNat == 0x0B || c.toNat == 0x0C

/-- Python `str.strip()`. -/
def pyStrip (s : String) : String :=
  ⟨((s.data.dropWhile pyIsSpace).reverse.dropWhile pyIsSpace).reverse⟩

/-- Split a character list at every occurrence of `sep` (Python `str.split(sep)`). -/
def splitChar (sep : Char) : List Char → List Char → List (List Char)
  | [], acc => [acc.reverse]
  | c :: cs, acc =>
    if c = sep then acc.reverse :: splitChar sep cs []
    else splitChar sep cs (c :: acc)

def pySplit (sep : Char) (s : String) : List String :=
  (splitChar sep s.data []).map (fun l => ⟨l⟩)

/-- Python `str.isalnum` on one character, for the alphabets used here
(ASCII letters/digits and Cyrillic letters). -/
def pyIsAlnumChar (c : Char) : Bool :=
  c.isAlphanum || (Nat.ble 0x410 c.toNat && Nat.ble c.toNat 0x44F)
    || c.toNat == 0x401 || c.toNat == 0x451

def digitsToNat (l : List Char) : Nat :=
  l.foldl (fun n c => n * 10 + (c.toNat - 48)) 0

/-- Opaque timestamp (year, month, day); the sub-day precision of Python
`datetime` plays no role in the verified properties. -/
structure DT where
  y : Nat
  m : Nat
  d : Nat
deriving DecidableEq, Repr

def daysInMonth (y m : Nat) : Nat :=
  if m = 2 then (if (y % 4 = 0 ∧ y % 100 ≠ 0) ∨ y % 400 = 0 then 29 else 28)
  else if m = 4 ∨ m = 6 ∨ m = 9 ∨ m = 11 then 30
  else 31

/-- `datetime.strptime(s, "%Y-%m-%d")`: 4-digit year, 1–2 digit month in
1..12, 1–2 digit day valid for the month, nothing left over. -/
def parseYMD (s : String) : Option DT :=
  match pySplit '-' s with
  | [ys, ms, ds] =>
    if ys.data.length = 4 ∧ ys.data.all Char.isDigit ∧
       1 ≤ ms.data.length ∧ ms.data.length ≤ 2 ∧ ms.data.all Char.isDigit ∧
       1 ≤ ds.data.length ∧ ds.data.length ≤ 2 ∧ ds.data.all Char.isDigit then
      let y := digitsToNat ys.data
      let m := digitsToNat ms.data
      let d := digitsToNat ds.data
      if 1 ≤ y ∧ 1 ≤ m ∧ m ≤ 12 ∧ 1 ≤ d ∧ d ≤ daysInMonth y m then some ⟨y, m, d⟩
      else none
    else none
  | _ => none

/-- file_loader.validate_date: `None`/blank strings are rejected, then the
stripped string is parsed as `YYYY-MM-DD`.  The argument is `Option String`
because `row.get(...)` can produce Python `None`. -/
def validate_date (date_str : Option String) : Option DT :=
  match date_str with
  | none => none
  | some s => if s = "" ∨ pyStrip s = "" then none else parseYMD (pyStrip s)

/-- file_loader.validate_vin: exactly 17 alphanumeric characters. -/
def validate_vin (vin : String) : Bool :=
  if vin = "" ∨ vin.data.length ≠ 17 then false
  else vin.data.all pyIsAlnumChar

/-- Python `float(...)` on the decimal forms produced by this program
(optional sign, digits with an optional decimal point); exotic float
syntax (exponents, inf/nan) never appears in these CSV columns. -/
def pyFloat (s0 : String) : Option Rat :=
  let s := pyStrip s0
  let (sign, t) : Int × List Char :=
    match s.data with
    | '-' :: r => (-1, r)
    | '+' :: r => (1, r)
    | r => (1, r)
  match splitChar '.' t [] with
  | [ip] =>
    if ip ≠ [] ∧ ip.all Char.isDigit then some (mkRat (sign * digitsToNat ip) 1)
    else none
  | [ip, fp] =>
    if (ip ≠ [] ∨ fp ≠ []) ∧ ip.all Char.isDigit ∧ fp.all Char.isDigit then
      some (mkRat (sign * (digitsToNat ip * 10 ^ fp.length + digitsToNat fp)) (10 ^ fp.length))
    else none
  | _ => none

/-- Python `s.replace(",", ".")` (single-character pattern, so a map). -/
def replaceCommaDot (s : String) : String :=
  ⟨s.data.map (fun c => if c = ',' then '.' else c)⟩

/-- models.Car. -/
structure Car where
  id : Nat
  vin : String
  model : String
  color : String
  purchase_price : Rat
  sale_price : Option Rat
  status : String
  location : String
  arrival_date : DT
  sale_date : Option DT
  buyer_id : Option Nat
deriving DecidableEq, Repr

/-- models.Movement. -/
structure Movement where
  id : Nat
  car_id : Nat
  date : DT
  from_location : String
  to_location : String
deriving DecidableEq, Repr

/-- models.Buyer. -/
structure Buyer where
  id : Nat
  name : String
  phone : Option String
  email : Option String
deriving DecidableEq, Repr

/-- models.Operation (append-only audit log entry). -/
structure Operation where
  id : Nat
  car_id : Option Nat
  operation_type : String
  date : DT
  details : String
  user : String
deriving DecidableEq, Repr

/-- The persistent store: the four tables in insertion order plus the
autoincrement counters. -/
structure DB where
  cars : List Car
  movements : List Movement
  buyers : List Buyer
  operations : List Operation
  next_car_id : Nat
  next_movement_id : Nat
  next_buyer_id : Nat
  next_operation_id : Nat
deriving DecidableEq, Repr

/-- Failure raised by the storage layer or by the Python runtime. -/
inductive PErr where
  | integrityError
  | storageError
  | attributeError
deriving DecidableEq, Repr

def perrName : PErr → String
  | .integrityError => "IntegrityError"
  | .storageError => "OperationalError"
  | .attributeError => "AttributeError"

/-- Outcomes of the `db.commit()` / `db.flush()` calls inside one
operation, numbered in the order fixed in each operation's comment. -/
def Oracle : Type := Nat → Bool

/-- Decidable equality of operation outcomes (needed to evaluate the
concrete witnesses by `decide`). -/
instance {ε α : Type} [DecidableEq ε] [DecidableEq α] : DecidableEq (Except ε α) := fun x y =>
  match x, y with
  | .error a, .error b =>
    if h : a = b then .isTrue (congrArg Except.error h)
    else .isFalse (fun hh => h (Except.error.inj hh))
  | .ok a, .ok b =>
    if h : a = b then .isTrue (congrArg Except.ok h)
    else .isFalse (fun hh => h (Except.ok.inj hh))
  | .error _, .ok _ => .isFalse (fun hh => Except.noConfusion hh)
  | .ok _, .error _ => .isFalse (fun hh => Except.noConfusion hh)

/-- schemas.CarCreate. -/
structure CarCreate where
  vin : String
  model : String
  color : String
  purchase_price : Rat
  arrival_date : DT
deriving DecidableEq, Repr

/-- schemas.CarUpdate with pydantic `exclude_unset` semantics: `none`
means the field was not supplied.  For the nullable columns the supplied
value is itself an `Option` (an explicit null clears the field). -/
structure CarUpdate where
  vin : Option String := none
  model : Option String := none
  color : Option String := none
  purchase_price : Option Rat := none
  sale_price : Option (Option Rat) := none
  status : Option String := none
  location : Option String := none
  arrival_date : Option DT := none
  sale_date : Option (Option DT) := none
  buyer_id : Option (Option Nat) := none
deriving DecidableEq, Repr

/-- crud.get_car. -/
def get_car (db : DB) (car_id : Nat) : Option Car :=
  db.cars.find? (fun c => c.id == car_id)

/-- crud.get_car_by_vin. -/
def get_car_by_vin (db : DB) (vin : String) : Option Car :=
  db.cars.find? (fun c => c.vin == vin)

/-- crud.get_buyer_by_name (exact string match). -/
def get_buyer_by_name (db : DB) (name : String) : Option Buyer :=
  db.buyers.find? (fun b => b.name == name)

/-- Mutating the ORM object returned by `.first()`: replace the first
list element satisfying `p`. -/
def replaceFirst (p : α → Bool) (f : α → α) : List α → List α
  | [] => []
  | x :: xs => if p x then f x :: xs else x :: replaceFirst p f xs

/-- The car row inserted by crud.create_car (status and location forced). -/
def mkNewCar (db : DB) (c : CarCreate) : Car :=
  { id := db.next_car_id, vin := c.vin, model := c.model, color := c.color,
    purchase_price := c.purchase_price, sale_price := none,
    status := "на складе", location := "склад",
    arrival_date := c.arrival_date, sale_date := none, buyer_id := none }

/-- crud.create_car.  Commit 0 persists the car (and is where the UNIQUE
constraint on vin fires); commit 1 persists the «поступление» operation.
The Python function commits twice, so a failure of commit 1 leaves the
car persisted without its log entry. -/
def create_car (o : Oracle) (db : DB) (c : CarCreate) (now : DT) :
    Except PErr Car × DB :=
  if db.cars.any (fun x => x.vin == c.vin) then (.error .integrityError, db)
  else if o 0 = false then (.error .storageError, db)
  else
    let car := mkNewCar db c
    let db1 : DB := { db with cars := db.cars ++ [car], next_car_id := db.next_car_id + 1 }
    if o 1 = false then (.error .storageError, db1)
    else
      let op : Operation :=
        { id := db1.next_operation_id, car_id := some car.id,
          operation_type := "поступление", date := now,
          details := "Поступление автомобиля VIN " ++ car.vin ++ ", " ++ car.model,
          user := "system" }
      (.ok car,
       { db1 with operations := db1.operations ++ [op],
                  next_operation_id := db1.next_operation_id + 1 })

/-- `setattr` loop of crud.update_car over `model_dump(exclude_unset=True)`. -/
def applyCarUpdate (c : Car) (u : CarUpdate) : Car :=
  { c with
    vin := u.vin.getD c.vin,
    model := u.model.getD c.model,
    color := u.color.getD c.color,
    purchase_price := u.purchase_price.getD c.purchase_price,
    sale_price := u.sale_price.getD c.sale_price,
    status := u.status.getD c.status,
    location := u.location.getD c.location,
    arrival_date := u.arrival_date.getD c.arrival_date,
    sale_date := u.sale_date.getD c.sale_date,
    buyer_id := u.buyer_id.getD c.buyer_id }

/-- crud.update_car.  Commit 0 persists the whole update; it fails with
IntegrityError when a supplied vin collides with another car's vin. -/
def update_car (o : Oracle) (db : DB) (car_id : Nat) (u : CarUpdate) :
    Except PErr (Option Car) × DB :=
  match get_car db car_id with
  | none => (.ok none, db)
  | some c =>
    let c2 := applyCarUpdate c u
    if u.vin.isSome && db.cars.any (fun x => (x.id != c.id) && (x.vin == c2.vin)) then
      (.error .integrityError, db)
    else if o 0 = false then (.error .storageError, db)
    else (.ok (some c2),
          { db with cars := replaceFirst (fun x => x.id == car_id) (fun _ => c2) db.cars })

/-- crud.delete_car: deletes the car's operations and movements, then the
car, in one transaction (commit 0). -/
def delete_car (o : Oracle) (db : DB) (car_id : Nat) : Except PErr Bool × DB :=
  match get_car db car_id with
  | none => (.ok false, db)
  | some _ =>
    if o 0 = false then (.error .storageError, db)
    else (.ok true,
      { db with
        cars := db.cars.filter (fun c => c.id != car_id),
        movements := db.movements.filter (fun m => m.car_id != car_id),
        operations := db.operations.filter (fun op => op.car_id != some car_id) })

/-- crud._status_by_location: lower-cased, stripped lookup with
«на складе» as the fallback. -/
def _status_by_location (to_location : String) : String :=
  if pyStrip (pyLower to_location) = "склад" then "на складе"
  else if pyStrip (pyLower to_location) = "демозал" then "в демозале"
  else if pyStrip (pyLower to_location) = "сервис" then "на сервисе"
  else "на складе"

/-- crud.move_car.  Index 0 is the `db.flush()` (a failure commits
nothing), index 1 the final `db.commit()` persisting the Movement, the
car mutation and the «перемещение» operation together. -/
def move_car (o : Oracle) (db : DB) (vin from_location to_location : String)
    (date : DT) : Except PErr (Option Movement) × DB :=
  match get_car_by_vin db vin with
  | none => (.ok none, db)
  | some c =>
    if from_location != "" && c.location != from_location then (.ok none, db)
    else if o 0 = false then (.error .storageError, db)
    else if o 1 = false then (.error .storageError, db)
    else
      let m : Movement :=
        { id := db.next_movement_id, car_id := c.id, date := date,
          from_location := c.location, to_location := to_location }
      let c2 : Car := { c with location := to_location,
                               status := _status_by_location to_location }
      let op : Operation :=
        { id := db.next_operation_id, car_id := some c.id,
          operation_type := "перемещение", date := date,
          details := "Перемещение VIN " ++ vin ++ ": " ++ c.location ++ " -> " ++ to_location,
          user := "system" }
      (.ok (some m),
       { db with
         cars := replaceFirst (fun x => x.vin == vin) (fun _ => c2) db.cars,
         movements := db.movements ++ [m],
         operations := db.operations ++ [op],
         next_movement_id := db.next_movement_id + 1,
         next_operation_id := db.next_operation_id + 1 })

/-- Final transaction of crud.sell_car (car mutation + «продажа» log
entry, committed together at index 1). -/
def sellFinish (o : Oracle) (db : DB) (c : Car) (vin : String) (sale_price : Rat)
    (buyer_name : String) (b : Buyer) (sale_date : Option DT) (now : DT) :
    Except PErr (Option Car) × DB :=
  if o 1 = false then (.error .storageError, db)
  else
    let sd := sale_date.getD now
    let c2 : Car := { c with status := "продан", sale_price := some sale_price,
                             sale_date := some sd, buyer_id := some b.id }
    let op : Operation :=
      { id := db.next_operation_id, car_id := some c.id,
        operation_type := "продажа", date := sd,
        details := "Продажа VIN " ++ vin ++ " покупателю " ++ buyer_name
                   ++ ", цена " ++ toString sale_price,
        user := "system" }
    (.ok (some c2),
     { db with
       cars := replaceFirst (fun x => x.vin == vin) (fun _ => c2) db.cars,
       operations := db.operations ++ [op],
       next_operation_id := db.next_operation_id + 1 })

/-- crud.sell_car.  A missing buyer is created by crud.create_buyer whose
own `db.commit()` is index 0 — a separate transaction from the final one. -/
def sell_car (o : Oracle) (db : DB) (vin : String) (sale_price : Rat)
    (buyer_name : String) (buyer_phone buyer_email : Option String)
    (sale_date : Option DT) (now : DT) : Except PErr (Option Car) × DB :=
  match get_car_by_vin db vin with
  | none => (.ok none, db)
  | some c =>
    if c.status = "продан" then (.ok none, db)
    else
      match get_buyer_by_name db buyer_name with
      | some b => sellFinish o db c vin sale_price buyer_name b sale_date now
      | none =>
        if o 0 = false then (.error .storageError, db)
        else
          let b : Buyer := { id := db.next_buyer_id, name := buyer_name,
                             phone := buyer_phone, email := buyer_email }
          let db1 : DB := { db with buyers := db.buyers ++ [b],
                                    next_buyer_id := db.next_buyer_id + 1 }
          sellFinish o db1 c vin sale_price buyer_name b sale_date now

/-- main.create_car endpoint: explicit duplicate-VIN pre-check before
calling crud.create_car; an uncaught storage exception surfaces as 500. -/
def create_car_api (o : Oracle) (db : DB) (c : CarCreate) (now : DT) :
    Except (Nat × String) Car × DB :=
  match get_car_by_vin db c.vin with
  | some _ => (.error (400, "Автомобиль с таким VIN уже существует"), db)
  | none =>
    match create_car o db c now with
    | (.ok car, db1) => (.ok car, db1)
    | (.error e, db1) => (.error (500, perrName e), db1)

/-- A row dictionary as built by csv.DictReader and re-keyed by the
comprehension `\x7bk.strip(): v for k, v in row.items()\x7d`: header keys in
order, `none` values for columns missing from a short row.  Duplicate
keys follow Python dict semantics (the last binding wins), so lookup
searches from the right. -/
def RowDict : Type := List (String × Option String)

def lookupLast (d : RowDict) (k : String) : Option (Option String) :=
  (d.reverse.find? (fun kv => kv.1 == k)).map (fun kv => kv.2)

/-- Build the stripped-key row dict.  A row longer than the header makes
DictReader store the extras under the `None` restkey, and `None.strip()`
then raises AttributeError — uncaught in file_loader (only OSError is
caught), so it aborts the whole parse. -/
def rowToDict (headers fields : List String) : Except PErr RowDict :=
  if headers.length < fields.length then .error .attributeError
  else .ok (((headers.zip (fields.map some))
      ++ (headers.drop fields.length).map (fun h => (h, (none : Option String)))).map
      (fun kv => (pyStrip kv.1, kv.2)))

/-- `row.get(k, "")`: missing column yields `""`, a short-row `None`
value stays `None`. -/
def getFieldD (d : RowDict) (k : String) : Option String :=
  match lookupLast d k with
  | none => some ""
  | some v => v

/-- `(row.get(k) or "")`. -/
def getFieldOr (d : RowDict) (k : String) : String :=
  match lookupLast d k with
  | none => ""
  | some none => ""
  | some (some s) => s

/-- `row.get(k)` as rendered inside an f-string (`None` prints "None"). -/
def pyShowOpt (v : Option String) : String :=
  match v with
  | none => "None"
  | some s => s

/-- One line of a CSV file as csv.reader sees it: a blank line is an
empty record, any other line splits on the `;` delimiter. -/
def csvRecord (line : String) : List String :=
  if line = "" then [] else pySplit ';' line

/-- file_loader.FileLoadResult, generic over the per-file row type. -/
structure FileLoadResult (α : Type) where
  success : Bool
  data : List α
  errors : List String
deriving DecidableEq, Repr

/-- A validated arrivals row (file_loader.parse_arrivals_file dict). -/
structure ArrivalRow where
  date : DT
  model : String
  color : String
  vin : String
  purchase_price : Rat
deriving DecidableEq, Repr

/-- A validated movements row. -/
structure MovementRow where
  date : DT
  vin : String
  from_location : String
  to_location : String
deriving DecidableEq, Repr

/-- A validated sales row. -/
structure SaleRow where
  date : DT
  vin : String
  buyer_name : String
  sale_price : Rat
deriving DecidableEq, Repr

/-- Validation of one arrivals row: date, then VIN, then price, then
model/color — first failure yields that row's single error string. -/
def parseArrivalRow (headers fields : List String) (row_num : Nat) :
    Except PErr (Except String ArrivalRow) :=
  match rowToDict headers fields with
  | .error e => .error e
  | .ok d =>
    match validate_date (getFieldD d "date") with
    | none => .ok (.error ("Строка " ++ toString row_num ++ ": неверная дата '"
        ++ pyShowOpt (getFieldD d "date") ++ "'"))
    | some date_val =>
      let vin := pyStrip (getFieldOr d "vin")
      if validate_vin vin = false then
        .ok (.error ("Строка " ++ toString row_num ++ ": неверный VIN '" ++ vin
          ++ "' (ожидается 17 букв/цифр)"))
      else
        match pyFloat (pyStrip (replaceCommaDot (getFieldOr d "purchase_price"))) with
        | none => .ok (.error ("Строка " ++ toString row_num ++ ": неверная цена закупки '"
            ++ pyShowOpt (match lookupLast d "purchase_price" with | none => none | some v => v) ++ "'"))
        | some price =>
          let model := pyStrip (getFieldOr d "model")
          let color := pyStrip (getFieldOr d "color")
          if model = "" ∨ color = "" then
            .ok (.error ("Строка " ++ toString row_num ++ ": модель и цвет обязательны"))
          else .ok (.ok ⟨date_val, model, color, vin, price⟩)

/-- Row loop of parse_arrivals_file (`enumerate(reader, start=2)`). -/
def parseArrivalsRows (headers : List String) :
    Nat → List (List String) → Except PErr (List ArrivalRow × List String)
  | _, [] => .ok ([], [])
  | n, fields :: rest =>
    match parseArrivalRow headers fields n with
    | .error e => .error e
    | .ok (.error msg) =>
      match parseArrivalsRows headers (n + 1) rest with
      | .error e => .error e
      | .ok (ds, es) => .ok (ds, msg :: es)
    | .ok (.ok r) =>
      match parseArrivalsRows headers (n + 1) rest with
      | .error e => .error e
      | .ok (ds, es) => .ok (r :: ds, es)

/-- file_loader.parse_arrivals_file.  `none` models a missing file.  The
first line supplies the DictReader field names; blank records among the
remaining lines are skipped by DictReader before enumeration. -/
def parse_arrivals_file (file : Option (List String)) :
    Except PErr (FileLoadResult ArrivalRow) :=
  match file with
  | none => .ok { success := false, data := [], errors := ["Файл не найден"] }
  | some lines =>
    match lines.map csvRecord with
    | [] => .ok { success := true, data := [], errors := [] }
    | headers :: rest =>
      match parseArrivalsRows headers 2 (rest.filter (fun r => !r.isEmpty)) with
      | .error e => .error e
      | .ok (ds, es) => .ok { success := es.isEmpty, data := ds, errors := es }

/-- Validation of one movements row: date, VIN, then both locations
required non-empty. -/
def parseMovementRow (headers fields : List String) (row_num : Nat) :
    Except PErr (Except String MovementRow) :=
  match rowToDict headers fields with
  | .error e => .error e
  | .ok d =>
    match validate_date (getFieldD d "date") with
    | none => .ok (.error ("Строка " ++ toString row_num ++ ": неверная дата '"
        ++ pyShowOpt (getFieldD d "date") ++ "'"))
    | some date_val =>
      let vin := pyStrip (getFieldOr d "vin")
      if validate_vin vin = false then
        .ok (.error ("Строка " ++ toString row_num ++ ": неверный VIN '" ++ vin ++ "'"))
      else
        let from_loc := pyStrip (getFieldOr d "from_location")
        let to_loc := pyStrip (getFieldOr d "to_location")
        if from_loc = "" ∨ to_loc = "" then
          .ok (.error ("Строка " ++ toString row_num ++ ": from_location и to_location обязательны"))
        else .ok (.ok ⟨date_val, vin, from_loc, to_loc⟩)

def parseMovementsRows (headers : List String) :
    Nat → List (List String) → Except PErr (List MovementRow × List String)
  | _, [] => .ok ([], [])
  | n, fields :: rest =>
    match parseMovementRow headers fields n with
    | .error e => .error e
    | .ok (.error msg) =>
      match parseMovementsRows headers (n + 1) rest with
      | .error e => .error e
      | .ok (ds, es) => .ok (ds, msg :: es)
    | .ok (.ok r) =>
      match parseMovementsRows headers (n + 1) rest with
      | .error e => .error e
      | .ok (ds, es) => .ok (r :: ds, es)

/-- file_loader.parse_movements_file. -/
def parse_movements_file (file : Option (List String)) :
    Except PErr (FileLoadResult MovementRow) :=
  match file with
  | none => .ok { success := false, data := [], errors := ["Файл не найден"] }
  | some lines =>
    match lines.map csvRecord with
    | [] => .ok { success := true, data := [], errors := [] }
    | headers :: rest =>
      match parseMovementsRows headers 2 (rest.filter (fun r => !r.isEmpty)) with
      | .error e => .error e
      | .ok (ds, es) => .ok { success := es.isEmpty, data := ds, errors := es }

/-- Validation of one sales row: date, VIN, buyer_name non-empty, price. -/
def parseSaleRow (headers fields : List String) (row_num : Nat) :
    Except PErr (Except String SaleRow) :=
  match rowToDict headers fields with
  | .error e => .error e
  | .ok d =>
    match validate_date (getFieldD d "date") with
    | none => .ok (.error ("Строка " ++ toString row_num ++ ": неверная дата '"
        ++ pyShowOpt (getFieldD d "date") ++ "'"))
    | some date_val =>
      let vin := pyStrip (getFieldOr d "vin")
      if validate_vin vin = false then
        .ok (.error ("Строка " ++ toString row_num ++ ": неверный VIN '" ++ vin ++ "'"))
      else
        let buyer_name := pyStrip (getFieldOr d "buyer_name")
        if buyer_name = "" then
          .ok (.error ("Строка " ++ toString row_num ++ ": buyer_name обязателен"))
        else
          match pyFloat (pyStrip (replaceCommaDot (getFieldOr d "sale_price"))) with
          | none => .ok (.error ("Строка " ++ toString row_num ++ ": неверная цена продажи '"
              ++ pyShowOpt (match lookupLast d "sale_price" with | none => none | some v => v) ++ "'"))
          | some price => .ok (.ok ⟨date_val, vin, buyer_name, price⟩)

def parseSalesRows (headers : List String) :
    Nat → List (List String) → Except PErr (List SaleRow × List String)
  | _, [] => .ok ([], [])
  | n, fields :: rest =>
    match parseSaleRow headers fields n with
    | .error e => .error e
    | .ok (.error msg) =>
      match parseSalesRows headers (n + 1) rest with
      | .error e => .error e
      | .ok (ds, es) => .ok (ds, msg :: es)
    | .ok (.ok r) =>
      match parseSalesRows headers (n + 1) rest with
      | .error e => .error e
      | .ok (ds, es) => .ok (r :: ds, es)

/-- file_loader.parse_sales_file. -/
def parse_sales_file (file : Option (List String)) :
    Except PErr (FileLoadResult SaleRow) :=
  match file with
  | none => .ok { success := false, data := [], errors := ["Файл не найден"] }
  | some lines =>
    match lines.map csvRecord with
    | [] => .ok { success := true, data := [], errors := [] }
    | headers :: rest =>
      match parseSalesRows headers 2 (rest.filter (fun r => !r.isEmpty)) with
      | .error e => .error e
      | .ok (ds, es) => .ok { success := es.isEmpty, data := ds, errors := es }

/-- file_loader import report. -/
structure ImportResult where
  imported : Nat
  skipped : Nat
  errors : List String
deriving DecidableEq, Repr

/-- file_loader.import_arrivals row loop.  `os i` is the oracle of the
create_car call for row `i`, `nows i` its `datetime.utcnow()`.  Rows with
an existing VIN are skipped silently; an exception from create_car is
caught and recorded as a per-row error string. -/
def import_arrivals_go (os : Nat → Oracle) (nows : Nat → DT) (i : Nat) (db : DB) :
    List ArrivalRow → ImportResult × DB
  | [] => (⟨0, 0, []⟩, db)
  | r :: rest =>
    match get_car_by_vin db r.vin with
    | some _ =>
      let (res, db2) := import_arrivals_go os nows (i + 1) db rest
      ({ res with skipped := res.skipped + 1 }, db2)
    | none =>
      match create_car (os i) db ⟨r.vin, r.model, r.color, r.purchase_price, r.date⟩ (nows i) with
      | (.ok _, db1) =>
        let (res, db2) := import_arrivals_go os nows (i + 1) db1 rest
        ({ res with imported := res.imported + 1 }, db2)
      | (.error e, db1) =>
        let (res, db2) := import_arrivals_go os nows (i + 1) db1 rest
        ({ res with errors := ("VIN " ++ r.vin ++ ": " ++ perrName e) :: res.errors }, db2)

def import_arrivals (os : Nat → Oracle) (nows : Nat → DT) (db : DB)
    (data : List ArrivalRow) : ImportResult × DB :=
  import_arrivals_go os nows 0 db data

/-- file_loader.import_movements row loop.  move_car returning `None`
counts as skipped and logs a descriptive error; a storage exception is
not caught and aborts the remaining rows. -/
def import_movements_go (os : Nat → Oracle) (i : Nat) (db : DB) :
    List MovementRow → Except PErr ImportResult × DB
  | [] => (.ok ⟨0, 0, []⟩, db)
  | r :: rest =>
    match move_car (os i) db r.vin r.from_location r.to_location r.date with
    | (.error e, db1) => (.error e, db1)
    | (.ok (some _), db1) =>
      match import_movements_go os (i + 1) db1 rest with
      | (.error e, db2) => (.error e, db2)
      | (.ok res, db2) => (.ok { res with imported := res.imported + 1 }, db2)
    | (.ok none, db1) =>
      match import_movements_go os (i + 1) db1 rest with
      | (.error e, db2) => (.error e, db2)
      | (.ok res, db2) =>
        (.ok { res with
               skipped := res.skipped + 1,
               errors := ("VIN " ++ r.vin ++ ": автомобиль не найден или неверное местоположение ("
                   ++ r.from_location ++ " -> " ++ r.to_location ++ ")") :: res.errors }, db2)

def import_movements (os : Nat → Oracle) (db : DB) (data : List MovementRow) :
    Except PErr ImportResult × DB :=
  import_movements_go os 0 db data

/-- file_loader.import_sales row loop (phone/email omitted, sale_date
taken from the row). -/
def import_sales_go (os : Nat → Oracle) (nows : Nat → DT) (i : Nat) (db : DB) :
    List SaleRow → Except PErr ImportResult × DB
  | [] => (.ok ⟨0, 0, []⟩, db)
  | r :: rest =>
    match sell_car (os i) db r.vin r.sale_price r.buyer_name none none (some r.date) (nows i) with
    | (.error e, db1) => (.error e, db1)
    | (.ok (some _), db1) =>
      match import_sales_go os nows (i + 1) db1 rest with
      | (.error e, db2) => (.error e, db2)
      | (.ok res, db2) => (.ok { res with imported := res.imported + 1 }, db2)
    | (.ok none, db1) =>
      match import_sales_go os nows (i + 1) db1 rest with
      | (.error e, db2) => (.error e, db2)
      | (.ok res, db2) =>
        (.ok { res with
               skipped := res.skipped + 1,
               errors := ("VIN " ++ r.vin ++ ": автомобиль не найден или уже продан") :: res.errors }, db2)

def import_sales (os : Nat → Oracle) (nows : Nat → DT) (db : DB) (data : List SaleRow) :
    Except PErr ImportResult × DB :=
  import_sales_go os nows 0 db data

/-- Parse component of the process_file result. -/
structure ParseInfo where
  success : Bool
  data_count : Nat
  errors : List String
deriving DecidableEq, Repr

/-- Whole process_file result; `imp` is the "import" key. -/
structure ProcessResult where
  parseInfo : ParseInfo
  imp : ImportResult
deriving DecidableEq, Repr

def emptyImport : ImportResult := ⟨0, 0, []⟩

/-- file_loader.process_file: normalise the declared type, parse, and run
the import phase only when the parse phase produced a non-empty data
list — the parse success flag is never consulted. -/
def process_file (os : Nat → Oracle) (nows : Nat → DT) (db : DB)
    (file : Option (List String)) (file_type : String) :
    Except PErr ProcessResult × DB :=
  let ft := pyStrip (pyLower file_type)
  if ft ≠ "arrivals" ∧ ft ≠ "movements" ∧ ft ≠ "sales" then
    (.ok ⟨⟨false, 0, ["Неизвестный тип файла: " ++ ft]⟩, emptyImport⟩, db)
  else if ft = "arrivals" then
    match parse_arrivals_file file with
    | .error e => (.error e, db)
    | .ok pr =>
      if pr.data.isEmpty then (.ok ⟨⟨pr.success, pr.data.length, pr.errors⟩, emptyImport⟩, db)
      else
        let (ir, db1) := import_arrivals os nows db pr.data
        (.ok ⟨⟨pr.success, pr.data.length, pr.errors⟩, ir⟩, db1)
  else if ft = "movements" then
    match parse_movements_file file with
    | .error e => (.error e, db)
    | .ok pr =>
      if pr.data.isEmpty then (.ok ⟨⟨pr.success, pr.data.length, pr.errors⟩, emptyImport⟩, db)
      else
        match import_movements os db pr.data with
        | (.error e, db1) => (.error e, db1)
        | (.ok ir, db1) => (.ok ⟨⟨pr.success, pr.data.length, pr.errors⟩, ir⟩, db1)
  else
    match parse_sales_file file with
    | .error e => (.error e, db)
    | .ok pr =>
      if pr.data.isEmpty then (.ok ⟨⟨pr.success, pr.data.length, pr.errors⟩, emptyImport⟩, db)
      else
        match import_sales os nows db pr.data with
        | (.error e, db1) => (.error e, db1)
        | (.ok ir, db1) => (.ok ⟨⟨pr.success, pr.data.length, pr.errors⟩, ir⟩, db1)

/-- The sold-state invariant of spec section 3: a car is «продан» iff
sale_price, sale_date and the buyer reference are all set. -/
def carSoldOk (c : Car) : Bool :=
  (c.status == "продан") == (c.sale_price.isSome && c.sale_date.isSome && c.buyer_id.isSome)

def soldInvariant (db : DB) : Bool :=
  db.cars.all carSoldOk

/-- No car of the store is sold. -/
def noSold (db : DB) : Bool :=
  db.cars.all (fun c => c.status != "продан")

/-- Fixtures used by the concrete witnesses and counterexamples. -/
def dbEmpty : DB := ⟨[], [], [], [], 1, 1, 1, 1⟩

def okO : Oracle := fun _ => true

def okOs : Nat → Oracle := fun _ _ => true

def dt0 : DT := ⟨2024, 1, 1⟩

def nows0 : Nat → DT := fun _ => dt0

/-- Oracle under which the first commit succeeds and the second fails. -/
def oSecondFails : Oracle := fun n => n == 0

def carA : Car :=
  { id := 1, vin := "AAAAAAAAAAAAAAAAA", model := "Sedan", color := "Black",
    purchase_price := 10, sale_price := none, status := "на складе",
    location := "склад", arrival_date := dt0, sale_date := none, buyer_id := none }

def dbA : DB := ⟨[carA], [], [], [], 2, 1, 1, 1⟩

def buyerJane : Buyer := ⟨1, "Jane Doe", none, none⟩

def carSoldA : Car :=
  { carA with status := "продан", sale_price := some 20,
              sale_date := some dt0, buyer_id := some 1 }

def dbSoldA : DB := ⟨[carSoldA], [], [buyerJane], [], 2, 1, 2, 1⟩

def ccA : CarCreate := ⟨"AAAAAAAAAAAAAAAAA", "Sedan", "Black", 10, dt0⟩

def updSetSold : CarUpdate := { status := some "продан" }

def updSetVin : CarUpdate := { vin := some "BBBBBBBBBBBBBBBBB" }

def exLines8 : List String :=
  ["date;model;color;vin;purchase_price",
   "2024-01-10;Sedan;Black;1HGCM82633A123456;15000",
   "2024-01-11;Coupe;Red;2HGCM82633A123457;9000"]

def exData8 : List ArrivalRow :=
  [⟨⟨2024, 1, 10⟩, "Sedan", "Black", "1HGCM82633A123456", 15000⟩,
   ⟨⟨2024, 1, 11⟩, "Coupe", "Red", "2HGCM82633A123457", 9000⟩]

def exLines10 : List String :=
  ["date;model;color;vin;purchase_price",
   "BAD;Sedan;Black;1HGCM82633A123456;100",
   "2024-01-11;Coupe;Red;2HGCM82633A123457;90"]

def exData10 : List ArrivalRow :=
  [⟨⟨2024, 1, 11⟩, "Coupe", "Red", "2HGCM82633A123457", 90⟩]

def exParsed10 : FileLoadResult ArrivalRow :=
  ⟨false, exData10, ["Строка 2: неверная дата 'BAD'"]⟩

/-- The «поступление» operation row appended by a fully committed
crud.create_car call. -/
def arrivalOp (db : DB) (c : CarCreate) (now : DT) : Operation :=
  { id := db.next_operation_id, car_id := some db.next_car_id,
    operation_type := "поступление", date := now,
    details := "Поступление автомобиля VIN " ++ c.vin ++ ", " ++ c.model,
    user := "system" }

/-- The car value written by a committed sale. -/
def soldCar (c : Car) (p : Rat) (b : Buyer) (sd : Option DT) (now : DT) : Car :=
  { c with status := "продан", sale_price := some p,
           sale_date := some (sd.getD now), buyer_id := some b.id }

/-- The store produced by a fully committed crud.create_car call. -/
def createdDB (db : DB) (c : CarCreate) (now : DT) : DB :=
  { db with cars := db.cars ++ [mkNewCar db c],
            operations := db.operations ++ [arrivalOp db c now],
            next_car_id := db.next_car_id + 1,
            next_operation_id := db.next_operation_id + 1 }

theorem all_replaceFirst (p : α → Bool) (f : α → α) (q : α → Bool) (l : List α)
    (h : l.all q = true) (hf : ∀ x, p x = true → q x = true → q (f x) = true) :
    (replaceFirst p f l).all q = true := by
  induction l with
  | nil => simp [replaceFirst]
  | cons x xs ih =>
    simp only [List.all_cons, Bool.and_eq_true] at h
    by_cases hp : p x = true
    · simp [replaceFirst, hp, hf x hp h.1, h.2]
    · simp only [replaceFirst, hp, if_neg]
      simp [h.1, ih h.2, hp]

theorem all_filter_of_all (q p : α → Bool) (l : List α) (h : l.all q = true) :
    (l.filter p).all q = true := by
  rw [List.all_eq_true] at h ⊢
  intro x hx
  exact h x (List.mem_of_mem_filter hx)

theorem find?_vin_append_none (l : List Car) (new : Car) (v : String)
    (h : l.find? (fun c => c.vin == v) = none) (hne : new.vin ≠ v) :
    (l ++ [new]).find? (fun c => c.vin == v) = none := by
  rw [List.find?_eq_none] at h ⊢
  intro x hx
  rcases List.mem_append.mp hx with h1 | h1
  · exact h x h1
  · simp only [List.mem_singleton] at h1
    subst h1
    simp [hne]

theorem status_by_location_ne_sold (t : String) : _status_by_location t ≠ "продан" := by
  unfold _status_by_location
  split
  · decide
  · split
    · decide
    · split <;> decide

theorem create_car_ok_eq (o : Oracle) (db : DB) (c : CarCreate) (now : DT)
    (hfresh : get_car_by_vin db c.vin = none) (h0 : o 0 = true) (h1 : o 1 = true) :
    create_car o db c now = (.ok (mkNewCar db c), createdDB db c now) := by
  have hany : db.cars.any (fun x => x.vin == c.vin) = false := by
    rw [← Bool.not_eq_true, List.any_eq_true]
    rintro ⟨x, hx, hxe⟩
    unfold get_car_by_vin at hfresh
    rw [List.find?_eq_none] at hfresh
    exact hfresh x hx hxe
  unfold create_car
  rw [hany, h0, h1]
  simp [arrivalOp, mkNewCar, createdDB]

/-- Claim C5 (confirmed): a moveCar call whose from_location argument is
non-empty and differs from the car's current location returns the
failure outcome (crud.move_car returns None) and leaves the whole store
— car record, movement history and operation log — unchanged; an empty
from_location skips the current-location check, so the move succeeds for
any current location once the commits go through. -/
theorem move_car_location_mismatch :
    (∀ (o : Oracle) (db : DB) (vin f t : String) (d : DT) (c : Car),
       get_car_by_vin db vin = some c → f ≠ "" → c.location ≠ f →
       move_car o db vin f t d = (.ok none, db)) ∧
    (∀ (o : Oracle) (db : DB) (vin t : String) (d : DT) (c : Car),
       get_car_by_vin db vin = some c → o 0 = true → o 1 = true →
       ∃ m : Movement, (move_car o db vin "" t d).1 = .ok (some m)) := by
  constructor
  · intro o db vin f t d c hc hf hl
    unfold move_car
    rw [hc]
    have hcond : (f != "" && c.location != f) = true := by
      simp [bne_iff_ne, hf, hl]
    simp [hcond]
  · intro o db vin t d c hc h0 h1
    unfold move_car
    rw [hc]
    have hcond : (("" : String) != "" && c.location != "") = false := by simp
    simp [hcond, h0, h1]

/-- Witness for C5 at a concrete store: moving carA with a wrong
from_location fails and changes nothing, and an empty from_location
succeeds. -/
theorem move_car_location_mismatch_witness :
    move_car okO dbA "AAAAAAAAAAAAAAAAA" "демозал" "сервис" dt0 = (.ok none, dbA) ∧
    ∃ m : Movement, (move_car okO dbA "AAAAAAAAAAAAAAAAA" "" "сервис" dt0).1 = .ok (some m) :=
  ⟨move_car_location_mismatch.1 okO dbA "AAAAAAAAAAAAAAAAA" "демозал" "сервис" dt0 carA
      (by decide) (by decide) (by decide),
   move_car_location_mismatch.2 okO dbA "AAAAAAAAAAAAAAAAA" "сервис" dt0 carA
      (by decide) rfl rfl⟩

/-- Claim C7 (confirmed): selling a car whose status is already «продан»
returns the already-sold failure outcome (None at the crud level, 400 at
the endpoint) and leaves the store unchanged, so the sale_price,
sale_date and buyer reference of the first sale are preserved. -/
theorem sell_car_already_sold (o : Oracle) (db : DB) (vin : String) (p : Rat)
    (nm : String) (ph em : Option String) (sd : Option DT) (now : DT) (c : Car)
    (hc : get_car_by_vin db vin = some c) (hs : c.status = "продан") :
    sell_car o db vin p nm ph em sd now = (.ok none, db) := by
  unfold sell_car
  rw [hc]
  simp [hs]

/-- Witness for C7: re-selling the already sold carSoldA fails and
preserves its recorded sale data. -/
theorem sell_car_already_sold_witness :
    sell_car okO dbSoldA "AAAAAAAAAAAAAAAAA" 99 "Bob" none none none dt0 = (.ok none, dbSoldA) :=
  sell_car_already_sold okO dbSoldA "AAAAAAAAAAAAAAAAA" 99 "Bob" none none none dt0 carSoldA
    (by decide) (by decide)

/-- Claim C4 (confirmed): when the store holds exactly one car with VIN v,
creating another car with that VIN fails — the main.create_car endpoint
answers 400 «Автомобиль с таким VIN уже существует», and the raw
crud.create_car path hits the UNIQUE constraint (IntegrityError) — and
in both cases the store is unchanged, so exactly one car with VIN v
remains persisted. -/
theorem duplicate_vin_rejected (o : Oracle) (db : DB) (c : CarCreate) (now : DT)
    (h1 : db.cars.countP (fun x => x.vin == c.vin) = 1) :
    (create_car_api o db c now).1 = .error (400, "Автомобиль с таким VIN уже существует") ∧
    (create_car_api o db c now).2 = db ∧
    (create_car_api o db c now).2.cars.countP (fun x => x.vin == c.vin) = 1 ∧
    (create_car o db c now).1 = .error .integrityError ∧
    (create_car o db c now).2 = db := by
  have hpos : 0 < db.cars.countP (fun x => x.vin == c.vin) := by omega
  have hex : ∃ x ∈ db.cars, x.vin == c.vin := List.countP_pos_iff.mp hpos
  have hany : db.cars.any (fun x => x.vin == c.vin) = true := List.any_eq_true.mpr hex
  have hsome : (get_car_by_vin db c.vin).isSome := by
    unfold get_car_by_vin
    exact List.find?_isSome.mpr hex
  obtain ⟨y, hy⟩ := Option.isSome_iff_exists.mp hsome
  have hcrud1 : (create_car o db c now).1 = .error .integrityError := by
    unfold create_car
    rw [hany]
    rfl
  have hcrud2 : (create_car o db c now).2 = db := by
    unfold create_car
    rw [hany]
    rfl
  refine ⟨?_, ?_, ?_, hcrud1, hcrud2⟩
  · unfold create_car_api
    rw [hy]
  · unfold create_car_api
    rw [hy]
  · unfold create_car_api
    rw [hy]
    exact h1

/-- Witness for C4 at a concrete store holding exactly the car with VIN
AAAAAAAAAAAAAAAAA. -/
theorem duplicate_vin_rejected_witness :
    (create_car_api okO dbA ccA dt0).1 = .error (400, "Автомобиль с таким VIN уже существует") ∧
    (create_car_api okO dbA ccA dt0).2 = dbA ∧
    (create_car_api okO dbA ccA dt0).2.cars.countP (fun x => x.vin == ccA.vin) = 1 ∧
    (create_car okO dbA ccA dt0).1 = .error .integrityError ∧
    (create_car okO dbA ccA dt0).2 = dbA :=
  duplicate_vin_rejected okO dbA ccA dt0 (by decide)

/-- Claim C6 (confirmed): a successful moveCar records a Movement whose
from_location is the car's location immediately before the move
(regardless of the from_location argument), sets the car's location to
to_location and its status via crud._status_by_location — the
case-insensitive trimmed mapping «склад»/warehouse → «на складе»/in_stock,
«демозал»/showroom → «в демозале»/in_showroom, «сервис»/service →
«на сервисе»/in_service, anything else → «на складе»/in_stock — and
appends one «перемещение» operation to the log. -/
theorem move_car_success_spec (o : Oracle) (db : DB) (vin f t : String) (d : DT) (c : Car)
    (hc : get_car_by_vin db vin = some c)
    (hfrom : f = "" ∨ c.location = f)
    (h0 : o 0 = true) (h1 : o 1 = true) :
    move_car o db vin f t d =
      (.ok (some ⟨db.next_movement_id, c.id, d, c.location, t⟩),
       { db with
         cars := replaceFirst (fun x => x.vin == vin)
             (fun _ => { c with location := t, status := _status_by_location t }) db.cars,
         movements := db.movements ++ [⟨db.next_movement_id, c.id, d, c.location, t⟩],
         operations := db.operations ++
           [⟨db.next_operation_id, some c.id, "перемещение", d,
             "Перемещение VIN " ++ vin ++ ": " ++ c.location ++ " -> " ++ t, "system"⟩],
         next_movement_id := db.next_movement_id + 1,
         next_operation_id := db.next_operation_id + 1 }) ∧
    (∀ s : String, pyStrip (pyLower s) = "склад" → _status_by_location s = "на складе") ∧
    (∀ s : String, pyStrip (pyLower s) = "демозал" → _status_by_location s = "в демозале") ∧
    (∀ s : String, pyStrip (pyLower s) = "сервис" → _status_by_location s = "на сервисе") ∧
    (∀ s : String, pyStrip (pyLower s) ≠ "склад" → pyStrip (pyLower s) ≠ "демозал" →
       pyStrip (pyLower s) ≠ "сервис" → _status_by_location s = "на складе") := by
  refine ⟨?_, ?_, ?_, ?_, ?_⟩
  · unfold move_car
    rw [hc]
    have hcond : (f != "" && c.location != f) = false := by
      rcases hfrom with h | h
      · subst h; simp
      · simp [h]
    simp [hcond, h0, h1]
  · intro s hs; simp [_status_by_location, hs]
  · intro s hs; simp [_status_by_location, hs]
  · intro s hs; simp [_status_by_location, hs]
  · intro s hs1 hs2 hs3; simp [_status_by_location, hs1, hs2, hs3]

/-- Witness for C6: moving carA from its current location «склад» to
«Демозал» (upper-case, exercising the case-insensitive mapping). -/
theorem move_car_success_spec_witness :
    (move_car okO dbA "AAAAAAAAAAAAAAAAA" "склад" "Демозал" dt0).1 =
      .ok (some ⟨1, 1, dt0, "склад", "Демозал"⟩) ∧
    _status_by_location "Демозал" = "в демозале" := by
  constructor
  · rw [(move_car_success_spec okO dbA "AAAAAAAAAAAAAAAAA" "склад" "Демозал" dt0 carA
      (by decide) (Or.inr rfl) rfl rfl).1]
    rfl
  · exact (move_car_success_spec okO dbA "AAAAAAAAAAAAAAAAA" "склад" "Демозал" dt0 carA
      (by decide) (Or.inr rfl) rfl rfl).2.2.1 "Демозал" (by decide)

theorem move_car_error_unchanged (o : Oracle) (db : DB) (vin f t : String) (d : DT) (e : PErr)
    (h : (move_car o db vin f t d).1 = .error e) : (move_car o db vin f t d).2 = db := by
  unfold move_car at h ⊢
  cases hc : get_car_by_vin db vin
  · rfl
  · rename_i c
    rw [hc] at h
    by_cases h1 : (f != "" && c.location != f) = true
    · simp [h1]
    · rw [Bool.not_eq_true] at h1
      by_cases h2 : o 0 = false
      · simp [h1, h2]
      · by_cases h3 : o 1 = false
        · simp [h1, h2, h3]
        · exfalso
          simp [h1, h2, h3] at h

theorem delete_car_error_unchanged (o : Oracle) (db : DB) (car_id : Nat) (e : PErr)
    (h : (delete_car o db car_id).1 = .error e) : (delete_car o db car_id).2 = db := by
  unfold delete_car at h ⊢
  cases hc : get_car db car_id
  · rfl
  · rw [hc] at h
    by_cases h2 : o 0 = false
    · simp [h2]
    · exfalso
      simp [h2] at h

theorem update_car_error_unchanged (o : Oracle) (db : DB) (car_id : Nat) (u : CarUpdate)
    (e : PErr) (h : (update_car o db car_id u).1 = .error e) :
    (update_car o db car_id u).2 = db := by
  unfold update_car at h ⊢
  cases hc : get_car db car_id
  · rfl
  · rename_i c
    rw [hc] at h
    by_cases h1 : (u.vin.isSome && db.cars.any fun x => (x.id != c.id) && (x.vin == (applyCarUpdate c u).vin)) = true
    · simp [h1]
    · rw [Bool.not_eq_true] at h1
      by_cases h2 : o 0 = false
      · simp [h1, h2]
      · exfalso
        simp [h1, h2] at h

theorem create_car_error_cases (o : Oracle) (db : DB) (c : CarCreate) (now : DT) (e : PErr)
    (h : (create_car o db c now).1 = .error e) :
    (create_car o db c now).2 = db ∨
    (create_car o db c now).2 =
      { db with cars := db.cars ++ [mkNewCar db c], next_car_id := db.next_car_id + 1 } := by
  unfold create_car at h ⊢
  by_cases h1 : db.cars.any (fun x => x.vin == c.vin) = true
  · left; simp [h1]
  · rw [Bool.not_eq_true] at h1
    by_cases h2 : o 0 = false
    · left; simp [h1, h2]
    · by_cases h3 : o 1 = false
      · right; simp [h1, h2, h3]
      · exfalso
        simp [h1, h2, h3] at h

theorem sell_car_error_parts (o : Oracle) (db : DB) (vin : String) (p : Rat) (nm : String)
    (ph em : Option String) (sd : Option DT) (now : DT) (e : PErr)
    (h : (sell_car o db vin p nm ph em sd now).1 = .error e) :
    (sell_car o db vin p nm ph em sd now).2.cars = db.cars ∧
    (sell_car o db vin p nm ph em sd now).2.operations = db.operations ∧
    ((sell_car o db vin p nm ph em sd now).2.buyers = db.buyers ∨
     ∃ b : Buyer, (sell_car o db vin p nm ph em sd now).2.buyers = db.buyers ++ [b]) := by
  unfold sell_car at h ⊢
  cases hc : get_car_by_vin db vin
  · exact ⟨rfl, rfl, Or.inl rfl⟩
  · rename_i c
    rw [hc] at h
    dsimp only at h
    by_cases hs : c.status = "продан"
    · simp [hs] at h
    · rw [if_neg hs] at h
      cases hb : get_buyer_by_name db nm
      · rw [hb] at h
        by_cases h0 : o 0 = false
        · refine ⟨?_, ?_, Or.inl ?_⟩ <;> simp [hs, h0]
        · unfold sellFinish at h
          by_cases h1 : o 1 = false
          · refine ⟨?_, ?_,
              Or.inr ⟨{ id := db.next_buyer_id, name := nm, phone := ph, email := em }, ?_⟩⟩ <;>
              simp [hs, h0, h1, sellFinish]
          · exfalso; simp [h0, h1] at h
      · rw [hb] at h
        unfold sellFinish at h
        by_cases h1 : o 1 = false
        · refine ⟨?_, ?_, Or.inl ?_⟩ <;> simp [hs, h1, sellFinish]
        · exfalso; simp [h1] at h

/-- Claim C2 (corrected): moveCar, deleteCar and updateCar are atomic — a
failed operation leaves the store exactly as it was.  But createCar is
not: it commits the car insert and the «поступление» log append in two
separate transactions, so a failure can leave the car persisted with no
log entry (the only two outcomes of a failed createCar).  Likewise
sellCar commits a newly created buyer in its own transaction before the
atomic car-mutation+sale-log commit, so a failed sale never persists a
partial sale but may leave the new buyer behind. -/
theorem atomicity_amended :
    (∀ (o : Oracle) (db : DB) (vin f t : String) (d : DT) (e : PErr),
       (move_car o db vin f t d).1 = .error e → (move_car o db vin f t d).2 = db) ∧
    (∀ (o : Oracle) (db : DB) (car_id : Nat) (e : PErr),
       (delete_car o db car_id).1 = .error e → (delete_car o db car_id).2 = db) ∧
    (∀ (o : Oracle) (db : DB) (car_id : Nat) (u : CarUpdate) (e : PErr),
       (update_car o db car_id u).1 = .error e → (update_car o db car_id u).2 = db) ∧
    (∀ (o : Oracle) (db : DB) (c : CarCreate) (now : DT) (e : PErr),
       (create_car o db c now).1 = .error e →
       (create_car o db c now).2 = db ∨
       (create_car o db c now).2 =
         { db with cars := db.cars ++ [mkNewCar db c], next_car_id := db.next_car_id + 1 }) ∧
    (∀ (o : Oracle) (db : DB) (vin : String) (p : Rat) (nm : String) (ph em : Option String)
       (sd : Option DT) (now : DT) (e : PErr),
       (sell_car o db vin p nm ph em sd now).1 = .error e →
       (sell_car o db vin p nm ph em sd now).2.cars = db.cars ∧
       (sell_car o db vin p nm ph em sd now).2.operations = db.operations ∧
       ((sell_car o db vin p nm ph em sd now).2.buyers = db.buyers ∨
        ∃ b : Buyer, (sell_car o db vin p nm ph em sd now).2.buyers = db.buyers ++ [b])) :=
  ⟨move_car_error_unchanged, delete_car_error_unchanged, update_car_error_unchanged,
   create_car_error_cases, sell_car_error_parts⟩

/-- Counterexample for C2 as stated: with the car-insert commit
succeeding and the operation-log commit failing, crud.create_car reports
a failure yet the car is persisted (and no log entry is), so the entity
mutation and the log append of createCar are not one atomic unit. -/
theorem atomicity_create_car_counterexample :
    (create_car oSecondFails dbEmpty ccA dt0).1 = .error .storageError ∧
    (create_car oSecondFails dbEmpty ccA dt0).2.cars.length = 1 ∧
    (create_car oSecondFails dbEmpty ccA dt0).2.operations.length = 0 ∧
    (create_car oSecondFails dbEmpty ccA dt0).2 ≠ dbEmpty := by decide

/-- Witness for the amended C2 at a concrete input: a move whose commit
fails leaves the concrete store dbA unchanged. -/
theorem atomicity_amended_witness :
    (move_car (fun _ => false) dbA "AAAAAAAAAAAAAAAAA" "" "демозал" dt0).2 = dbA :=
  atomicity_amended.1 (fun _ => false) dbA "AAAAAAAAAAAAAAAAA" "" "демозал" dt0
    .storageError (by decide)

theorem map_replaceFirst_found (g : α → β) (p : α → Bool) (f : α → α) (l : List α) (c : α)
    (h : l.find? p = some c) (hg : g (f c) = g c) :
    (replaceFirst p f l).map g = l.map g := by
  induction l with
  | nil => simp [List.find?] at h
  | cons x xs ih =>
    by_cases hp : p x = true
    · rw [List.find?_cons_of_pos _ hp] at h
      injection h with h
      subst h
      simp [replaceFirst, hp, hg]
    · rw [List.find?_cons_of_neg _ (by simpa using hp)] at h
      rw [Bool.not_eq_true] at hp
      simp [replaceFirst, hp, ih h]

/-- Counterexample for C3 as stated: schemas.CarUpdate exposes vin and
crud.update_car applies every supplied field, so an updateCar call that
supplies vin rewrites the car's VIN after creation. -/
theorem vin_update_counterexample :
    (update_car okO dbA 1 updSetVin).2.cars.map (fun c => c.vin) = ["BBBBBBBBBBBBBBBBB"] ∧
    dbA.cars.map (fun c => c.vin) = ["AAAAAAAAAAAAAAAAA"] := by decide

theorem update_car_ok_eq (o : Oracle) (db : DB) (car_id : Nat) (u : CarUpdate) (c : Car)
    (hc : get_car db car_id = some c)
    (h1 : (u.vin.isSome && db.cars.any fun x => (x.id != c.id) && (x.vin == (applyCarUpdate c u).vin)) = false)
    (h2 : o 0 = true) :
    update_car o db car_id u = (.ok (some (applyCarUpdate c u)),
      { db with cars := replaceFirst (fun x => x.id == car_id)
                          (fun _ => applyCarUpdate c u) db.cars }) := by
  unfold update_car
  rw [hc]
  simp [h1, h2]

theorem move_car_ok_eq (o : Oracle) (db : DB) (vin f t : String) (d : DT) (c : Car)
    (hc : get_car_by_vin db vin = some c) (hfrom : (f != "" && c.location != f) = false)
    (h0 : o 0 = true) (h1 : o 1 = true) :
    move_car o db vin f t d =
      (.ok (some ⟨db.next_movement_id, c.id, d, c.location, t⟩),
       { db with
         cars := replaceFirst (fun x => x.vin == vin)
             (fun _ => { c with location := t, status := _status_by_location t }) db.cars,
         movements := db.movements ++ [⟨db.next_movement_id, c.id, d, c.location, t⟩],
         operations := db.operations ++
           [⟨db.next_operation_id, some c.id, "перемещение", d,
             "Перемещение VIN " ++ vin ++ ": " ++ c.location ++ " -> " ++ t, "system"⟩],
         next_movement_id := db.next_movement_id + 1,
         next_operation_id := db.next_operation_id + 1 }) := by
  unfold move_car
  rw [hc]
  simp [hfrom, h0, h1]

theorem sellFinish_ok_eq (o : Oracle) (db : DB) (c : Car) (vin : String) (p : Rat)
    (nm : String) (b : Buyer) (sd : Option DT) (now : DT) (h1 : o 1 = true) :
    sellFinish o db c vin p nm b sd now =
      (.ok (some (soldCar c p b sd now)),
       { db with
         cars := replaceFirst (fun x => x.vin == vin) (fun _ => soldCar c p b sd now) db.cars,
         operations := db.operations ++
           [⟨db.next_operation_id, some c.id, "продажа", sd.getD now,
             "Продажа VIN " ++ vin ++ " покупателю " ++ nm ++ ", цена " ++ toString p,
             "system"⟩],
         next_operation_id := db.next_operation_id + 1 }) := by
  unfold sellFinish
  simp [h1, soldCar]

/-- Claim C3 (corrected): the VIN of every stored car is unchanged by
moveCar and sellCar, and by any updateCar call that does not supply the
vin field; only an updateCar that explicitly supplies vin can rewrite it
(as the counterexample shows). -/
theorem vin_immutable_amended :
    (∀ (o : Oracle) (db : DB) (car_id : Nat) (u : CarUpdate), u.vin = none →
       (update_car o db car_id u).2.cars.map (fun c => c.vin) = db.cars.map (fun c => c.vin)) ∧
    (∀ (o : Oracle) (db : DB) (vin f t : String) (d : DT),
       (move_car o db vin f t d).2.cars.map (fun c => c.vin) = db.cars.map (fun c => c.vin)) ∧
    (∀ (o : Oracle) (db : DB) (vin : String) (p : Rat) (nm : String) (ph em : Option String)
       (sd : Option DT) (now : DT),
       (sell_car o db vin p nm ph em sd now).2.cars.map (fun c => c.vin) =
         db.cars.map (fun c => c.vin)) := by
  refine ⟨?_, ?_, ?_⟩
  · intro o db car_id u hu
    cases hc : get_car db car_id
    · unfold update_car
      rw [hc]
    · rename_i c
      by_cases h1 : (u.vin.isSome && db.cars.any fun x => (x.id != c.id) && (x.vin == (applyCarUpdate c u).vin)) = true
      · unfold update_car
        rw [hc]
        simp [h1]
      · rw [Bool.not_eq_true] at h1
        by_cases h2 : o 0 = false
        · unfold update_car
          rw [hc]
          simp [h1, h2]
        · rw [Bool.not_eq_false] at h2
          rw [update_car_ok_eq o db car_id u c hc h1 h2]
          have hvin : (applyCarUpdate c u).vin = c.vin := by
            simp [applyCarUpdate, hu]
          exact map_replaceFirst_found (fun c => c.vin) (fun x => x.id == car_id)
            (fun _ => applyCarUpdate c u) db.cars c (by simpa [get_car] using hc) hvin
  · intro o db vin f t d
    cases hc : get_car_by_vin db vin
    · unfold move_car
      rw [hc]
    · rename_i c
      by_cases h1 : (f != "" && c.location != f) = true
      · unfold move_car
        rw [hc]
        simp [h1]
      · rw [Bool.not_eq_true] at h1
        by_cases h2 : o 0 = false
        · unfold move_car
          rw [hc]
          simp [h1, h2]
        · rw [Bool.not_eq_false] at h2
          by_cases h3 : o 1 = false
          · unfold move_car
            rw [hc]
            simp [h1, h2, h3]
          · rw [Bool.not_eq_false] at h3
            rw [move_car_ok_eq o db vin f t d c hc h1 h2 h3]
            exact map_replaceFirst_found (fun c => c.vin) (fun x => x.vin == vin)
              (fun _ => { c with location := t, status := _status_by_location t })
              db.cars c (by simpa [get_car_by_vin] using hc) rfl
  · intro o db vin p nm ph em sd now
    cases hc : get_car_by_vin db vin
    · unfold sell_car
      rw [hc]
    · rename_i c
      unfold sell_car
      rw [hc]
      dsimp only
      by_cases hs : c.status = "продан"
      · simp [hs]
      · rw [if_neg hs]
        have hmap : ∀ (dbx : DB) (b : Buyer), dbx.cars = db.cars →
            (sellFinish o dbx c vin p nm b sd now).2.cars.map (fun c => c.vin) =
              db.cars.map (fun c => c.vin) := by
          intro dbx b hdx
          by_cases h1 : o 1 = false
          · unfold sellFinish
            simp [h1, hdx]
          · rw [Bool.not_eq_false] at h1
            rw [sellFinish_ok_eq o dbx c vin p nm b sd now h1]
            dsimp only
            rw [hdx]
            exact map_replaceFirst_found (fun c => c.vin) (fun x => x.vin == vin)
              (fun _ => soldCar c p b sd now)
              db.cars c (by simpa [get_car_by_vin] using hc)
              (show (soldCar c p b sd now).vin = c.vin from rfl)
        cases hb : get_buyer_by_name db nm
        · by_cases h0 : o 0 = false
          · simp [h0]
          · rw [Bool.not_eq_false] at h0
            simp only [h0, Bool.true_eq_false, if_false]
            exact hmap _ _ rfl
        · rename_i b
          exact hmap db b rfl

/-- Witness for the amended C3: an update that does not supply vin keeps
the concrete store's VIN list unchanged. -/
theorem vin_immutable_amended_witness :
    (update_car okO dbA 1 updSetSold).2.cars.map (fun c => c.vin) =
      dbA.cars.map (fun c => c.vin) :=
  vin_immutable_amended.1 okO dbA 1 updSetSold rfl

theorem noSold_imp (db : DB) (h : noSold db = true) :
    ∀ vin : String, ∀ c ∈ db.cars, c.vin = vin → c.status ≠ "продан" := by
  intro vin c hm _
  unfold noSold at h
  have := List.all_eq_true.mp h c hm
  simpa [bne_iff_ne] using this

theorem soldInvariant_create (o : Oracle) (db : DB) (c : CarCreate) (now : DT)
    (h : soldInvariant db = true) : soldInvariant (create_car o db c now).2 = true := by
  have hnew : carSoldOk (mkNewCar db c) = true := by simp [carSoldOk, mkNewCar]
  unfold create_car
  by_cases h1 : db.cars.any (fun x => x.vin == c.vin) = true
  · simpa [h1] using h
  · rw [Bool.not_eq_true] at h1
    by_cases h2 : o 0 = false
    · simpa [h1, h2] using h
    · by_cases h3 : o 1 = false
      · unfold soldInvariant at h ⊢
        simp [h1, h2, h3, List.all_append, h, hnew]
      · unfold soldInvariant at h ⊢
        simp [h1, h2, h3, List.all_append, h, hnew]

theorem soldInvariant_update (o : Oracle) (db : DB) (car_id : Nat) (u : CarUpdate)
    (hst : u.status = none) (hsp : u.sale_price = none) (hsdt : u.sale_date = none)
    (hbi : u.buyer_id = none) (h : soldInvariant db = true) :
    soldInvariant (update_car o db car_id u).2 = true := by
  cases hc : get_car db car_id
  · unfold update_car
    rw [hc]
    exact h
  · rename_i c
    by_cases h1 : (u.vin.isSome && db.cars.any fun x => (x.id != c.id) && (x.vin == (applyCarUpdate c u).vin)) = true
    · unfold update_car
      rw [hc]
      simpa [h1] using h
    · rw [Bool.not_eq_true] at h1
      by_cases h2 : o 0 = false
      · unfold update_car
        rw [hc]
        simpa [h1, h2] using h
      · rw [Bool.not_eq_false] at h2
        rw [update_car_ok_eq o db car_id u c hc h1 h2]
        unfold soldInvariant at h ⊢
        dsimp only
        refine all_replaceFirst _ _ _ _ h ?_
        intro x _ _
        have hmem : c ∈ db.cars := List.mem_of_find?_eq_some (by simpa [get_car] using hc)
        have hcq : carSoldOk c = true := List.all_eq_true.mp h c hmem
        have heq : carSoldOk (applyCarUpdate c u) = carSoldOk c := by
          simp [carSoldOk, applyCarUpdate, hst, hsp, hsdt, hbi]
        rw [heq]
        exact hcq

theorem soldInvariant_move (o : Oracle) (db : DB) (vin f t : String) (d : DT)
    (h : soldInvariant db = true)
    (hns : ∀ c ∈ db.cars, c.vin = vin → c.status ≠ "продан") :
    soldInvariant (move_car o db vin f t d).2 = true := by
  cases hc : get_car_by_vin db vin
  · unfold move_car
    rw [hc]
    exact h
  · rename_i c
    by_cases h1 : (f != "" && c.location != f) = true
    · unfold move_car
      rw [hc]
      simpa [h1] using h
    · rw [Bool.not_eq_true] at h1
      by_cases h2 : o 0 = false
      · unfold move_car
        rw [hc]
        simpa [h1, h2] using h
      · rw [Bool.not_eq_false] at h2
        by_cases h3 : o 1 = false
        · unfold move_car
          rw [hc]
          simpa [h1, h2, h3] using h
        · rw [Bool.not_eq_false] at h3
          rw [move_car_ok_eq o db vin f t d c hc h1 h2 h3]
          unfold soldInvariant at h ⊢
          dsimp only
          refine all_replaceFirst _ _ _ _ h ?_
          intro x _ _
          have hfind : db.cars.find? (fun x => x.vin == vin) = some c := by
            simpa [get_car_by_vin] using hc
          have hmem : c ∈ db.cars := List.mem_of_find?_eq_some hfind
          have hcvin : c.vin = vin := by
            have := List.find?_some hfind
            simpa using this
          have hcns : c.status ≠ "продан" := hns c hmem hcvin
          have hcq : carSoldOk c = true := List.all_eq_true.mp h c hmem
          have hfields : (c.sale_price.isSome && c.sale_date.isSome && c.buyer_id.isSome) = false := by
            unfold carSoldOk at hcq
            rw [show (c.status == "продан") = false by simp [hcns]] at hcq
            cases hx : (c.sale_price.isSome && c.sale_date.isSome && c.buyer_id.isSome)
            · rfl
            · rw [hx] at hcq
              exact absurd hcq (by decide)
          have hstat2 : (_status_by_location t == "продан") = false := by
            simp [status_by_location_ne_sold t]
          show carSoldOk { c with location := t, status := _status_by_location t } = true
          unfold carSoldOk
          dsimp only
          rw [hstat2, hfields]
          rfl

theorem noSold_move (o : Oracle) (db : DB) (vin f t : String) (d : DT)
    (h : noSold db = true) : noSold (move_car o db vin f t d).2 = true := by
  cases hc : get_car_by_vin db vin
  · unfold move_car
    rw [hc]
    exact h
  · rename_i c
    by_cases h1 : (f != "" && c.location != f) = true
    · unfold move_car
      rw [hc]
      simpa [h1] using h
    · rw [Bool.not_eq_true] at h1
      by_cases h2 : o 0 = false
      · unfold move_car
        rw [hc]
        simpa [h1, h2] using h
      · rw [Bool.not_eq_false] at h2
        by_cases h3 : o 1 = false
        · unfold move_car
          rw [hc]
          simpa [h1, h2, h3] using h
        · rw [Bool.not_eq_false] at h3
          rw [move_car_ok_eq o db vin f t d c hc h1 h2 h3]
          unfold noSold at h ⊢
          dsimp only
          refine all_replaceFirst _ _ _ _ h ?_
          intro x _ _
          simp [bne_iff_ne, status_by_location_ne_sold t]

theorem soldInvariant_sell (o : Oracle) (db : DB) (vin : String) (p : Rat) (nm : String)
    (ph em : Option String) (sd : Option DT) (now : DT)
    (h : soldInvariant db = true) :
    soldInvariant (sell_car o db vin p nm ph em sd now).2 = true := by
  cases hc : get_car_by_vin db vin
  · unfold sell_car
    rw [hc]
    exact h
  · rename_i c
    unfold sell_car
    rw [hc]
    dsimp only
    by_cases hs : c.status = "продан"
    · simpa [hs] using h
    · rw [if_neg hs]
      have hfin : ∀ (dbx : DB) (b : Buyer), dbx.cars = db.cars →
          soldInvariant (sellFinish o dbx c vin p nm b sd now).2 = true := by
        intro dbx b hdx
        by_cases h1 : o 1 = false
        · unfold sellFinish
          rw [if_pos h1]
          unfold soldInvariant at h ⊢
          rw [hdx]
          exact h
        · rw [Bool.not_eq_false] at h1
          rw [sellFinish_ok_eq o dbx c vin p nm b sd now h1]
          unfold soldInvariant at h ⊢
          dsimp only
          rw [hdx]
          refine all_replaceFirst _ _ _ _ h ?_
          intro x _ _
          simp [carSoldOk, soldCar]
      cases hb : get_buyer_by_name db nm
      · by_cases h0 : o 0 = false
        · simpa [h0] using h
        · rw [Bool.not_eq_false] at h0
          simp only [h0, Bool.true_eq_false, if_false]
          exact hfin _ _ rfl
      · rename_i b
        exact hfin db b rfl

theorem soldInvariant_delete (o : Oracle) (db : DB) (car_id : Nat)
    (h : soldInvariant db = true) : soldInvariant (delete_car o db car_id).2 = true := by
  cases hc : get_car db car_id
  · unfold delete_car
    rw [hc]
    exact h
  · unfold delete_car
    rw [hc]
    dsimp only
    by_cases h2 : o 0 = false
    · simpa [h2] using h
    · rw [Bool.not_eq_false] at h2
      simp only [h2, Bool.true_eq_false, if_false]
      unfold soldInvariant at h ⊢
      exact all_filter_of_all _ _ _ h

theorem soldInvariant_import_arrivals_go (os : Nat → Oracle) (nows : Nat → DT) :
    ∀ (rows : List ArrivalRow) (i : Nat) (db : DB), soldInvariant db = true →
      soldInvariant (import_arrivals_go os nows i db rows).2 = true := by
  intro rows
  induction rows with
  | nil =>
    intro i db h
    simpa [import_arrivals_go] using h
  | cons r rest ih =>
    intro i db h
    unfold import_arrivals_go
    cases hg : get_car_by_vin db r.vin
    · cases hcr : create_car (os i) db ⟨r.vin, r.model, r.color, r.purchase_price, r.date⟩ (nows i) with
    | mk exc db1 =>
      have hdb1 : soldInvariant db1 = true := by
        have := soldInvariant_create (os i) db ⟨r.vin, r.model, r.color, r.purchase_price, r.date⟩ (nows i) h
        rw [hcr] at this
        exact this
      cases exc with
      | ok car =>
        dsimp only
        cases hrec : import_arrivals_go os nows (i + 1) db1 rest with
        | mk res db2 =>
          have := ih (i + 1) db1 hdb1
          rw [hrec] at this
          simpa using this
      | error e =>
        dsimp only
        cases hrec : import_arrivals_go os nows (i + 1) db1 rest with
        | mk res db2 =>
          have := ih (i + 1) db1 hdb1
          rw [hrec] at this
          simpa using this
    · dsimp only
      cases hrec : import_arrivals_go os nows (i + 1) db rest with
      | mk res db2 =>
        have := ih (i + 1) db h
        rw [hrec] at this
        simpa using this

theorem soldInvariant_import_sales_go (os : Nat → Oracle) (nows : Nat → DT) :
    ∀ (rows : List SaleRow) (i : Nat) (db : DB), soldInvariant db = true →
      soldInvariant (import_sales_go os nows i db rows).2 = true := by
  intro rows
  induction rows with
  | nil =>
    intro i db h
    simpa [import_sales_go] using h
  | cons r rest ih =>
    intro i db h
    unfold import_sales_go
    cases hcr : sell_car (os i) db r.vin r.sale_price r.buyer_name none none (some r.date) (nows i) with
    | mk exc db1 =>
      have hdb1 : soldInvariant db1 = true := by
        have := soldInvariant_sell (os i) db r.vin r.sale_price r.buyer_name none none
          (some r.date) (nows i) h
        rw [hcr] at this
        exact this
      cases exc with
      | ok mc =>
        cases mc with
        | some car =>
          dsimp only
          cases hrec : import_sales_go os nows (i + 1) db1 rest with
          | mk res db2 =>
            have := ih (i + 1) db1 hdb1
            rw [hrec] at this
            cases res with
            | ok r2 => simpa using this
            | error e2 => simpa using this
        | none =>
          dsimp only
          cases hrec : import_sales_go os nows (i + 1) db1 rest with
          | mk res db2 =>
            have := ih (i + 1) db1 hdb1
            rw [hrec] at this
            cases res with
            | ok r2 => simpa using this
            | error e2 => simpa using this
      | error e =>
        simpa using hdb1

theorem inv_import_movements_go (os : Nat → Oracle) :
    ∀ (rows : List MovementRow) (i : Nat) (db : DB),
      soldInvariant db = true → noSold db = true →
      soldInvariant (import_movements_go os i db rows).2 = true ∧
      noSold (import_movements_go os i db rows).2 = true := by
  intro rows
  induction rows with
  | nil =>
    intro i db h hn
    constructor
    · simpa [import_movements_go] using h
    · simpa [import_movements_go] using hn
  | cons r rest ih =>
    intro i db h hn
    unfold import_movements_go
    cases hcr : move_car (os i) db r.vin r.from_location r.to_location r.date with
    | mk exc db1 =>
      have hdb1 : soldInvariant db1 = true := by
        have := soldInvariant_move (os i) db r.vin r.from_location r.to_location r.date h
          (noSold_imp db hn r.vin)
        rw [hcr] at this
        exact this
      have hndb1 : noSold db1 = true := by
        have := noSold_move (os i) db r.vin r.from_location r.to_location r.date hn
        rw [hcr] at this
        exact this
      cases exc with
      | ok mm =>
        cases mm with
        | some m =>
          dsimp only
          cases hrec : import_movements_go os (i + 1) db1 rest with
          | mk res db2 =>
            have := ih (i + 1) db1 hdb1 hndb1
            rw [hrec] at this
            cases res with
            | ok r2 => simpa using this
            | error e2 => simpa using this
        | none =>
          dsimp only
          cases hrec : import_movements_go os (i + 1) db1 rest with
          | mk res db2 =>
            have := ih (i + 1) db1 hdb1 hndb1
            rw [hrec] at this
            cases res with
            | ok r2 => simpa using this
            | error e2 => simpa using this
      | error e =>
        exact ⟨by simpa using hdb1, by simpa using hndb1⟩

/-- Counterexample for C1 as stated: crud.update_car applies any supplied
field unchecked, so updateCar that sets status to «продан» without
supplying sale_price, sale_date or buyer_id makes a sold car with null
sale fields — the invariant fails right after an updateCar operation. -/
theorem sold_invariant_update_counterexample :
    soldInvariant dbA = true ∧
    soldInvariant (update_car okO dbA 1 updSetSold).2 = false := by decide

/-- Claim C1 (corrected): the sold-state invariant — status «продан» iff
sale_price, sale_date and buyer reference are all set — is preserved by
createCar, sellCar, deleteCar, arrivals import and sales import under any
commit outcomes; by updateCar whenever the update supplies none of
status, sale_price, sale_date, buyer_id; and by moveCar (and movements
import) whenever no stored car with the moved VIN is already sold (the
endpoint enforces this, the crud/import path does not).  Unrestricted
updateCar, or moveCar on an already-sold car, can break it. -/
theorem sold_invariant_amended :
    (∀ (o : Oracle) (db : DB) (c : CarCreate) (now : DT), soldInvariant db = true →
       soldInvariant (create_car o db c now).2 = true) ∧
    (∀ (o : Oracle) (db : DB) (car_id : Nat) (u : CarUpdate),
       u.status = none → u.sale_price = none → u.sale_date = none → u.buyer_id = none →
       soldInvariant db = true → soldInvariant (update_car o db car_id u).2 = true) ∧
    (∀ (o : Oracle) (db : DB) (vin f t : String) (d : DT),
       soldInvariant db = true → (∀ c ∈ db.cars, c.vin = vin → c.status ≠ "продан") →
       soldInvariant (move_car o db vin f t d).2 = true) ∧
    (∀ (o : Oracle) (db : DB) (vin : String) (p : Rat) (nm : String) (ph em : Option String)
       (sd : Option DT) (now : DT), soldInvariant db = true →
       soldInvariant (sell_car o db vin p nm ph em sd now).2 = true) ∧
    (∀ (o : Oracle) (db : DB) (car_id : Nat), soldInvariant db = true →
       soldInvariant (delete_car o db car_id).2 = true) ∧
    (∀ (os : Nat → Oracle) (nows : Nat → DT) (db : DB) (rows : List ArrivalRow),
       soldInvariant db = true → soldInvariant (import_arrivals os nows db rows).2 = true) ∧
    (∀ (os : Nat → Oracle) (nows : Nat → DT) (db : DB) (rows : List SaleRow),
       soldInvariant db = true → soldInvariant (import_sales os nows db rows).2 = true) ∧
    (∀ (os : Nat → Oracle) (db : DB) (rows : List MovementRow),
       soldInvariant db = true → noSold db = true →
       soldInvariant (import_movements os db rows).2 = true) :=
  ⟨soldInvariant_create, soldInvariant_update, soldInvariant_move, soldInvariant_sell,
   soldInvariant_delete,
   fun os nows db rows h => soldInvariant_import_arrivals_go os nows rows 0 db h,
   fun os nows db rows h => soldInvariant_import_sales_go os nows rows 0 db h,
   fun os db rows h hn => (inv_import_movements_go os rows 0 db h hn).1⟩

/-- Witness for the amended C1: selling the unsold carA, and moving it,
keep the invariant at a concrete store. -/
theorem sold_invariant_amended_witness :
    soldInvariant (sell_car okO dbA "AAAAAAAAAAAAAAAAA" 20 "Jane Doe" none none
      (some dt0) dt0).2 = true ∧
    soldInvariant (move_car okO dbA "AAAAAAAAAAAAAAAAA" "" "демозал" dt0).2 = true :=
  ⟨sold_invariant_amended.2.2.2.1 okO dbA "AAAAAAAAAAAAAAAAA" 20 "Jane Doe" none none
      (some dt0) dt0 (by decide),
   sold_invariant_amended.2.2.1 okO dbA "AAAAAAAAAAAAAAAAA" "" "демозал" dt0
      (by decide) (by decide)⟩

theorem import_arrivals_go_fresh (os : Nat → Oracle) (nows : Nat → DT)
    (hok : ∀ j k, os j k = true) :
    ∀ (rows : List ArrivalRow) (i : Nat) (db : DB),
      rows.Pairwise (fun a b => a.vin ≠ b.vin) →
      (∀ r ∈ rows, get_car_by_vin db r.vin = none) →
      ∃ newCars : List Car,
        (import_arrivals_go os nows i db rows).2.cars = db.cars ++ newCars ∧
        newCars.length = rows.length ∧
        (∀ c ∈ newCars, c.status = "на складе") ∧
        (import_arrivals_go os nows i db rows).1.imported = rows.length ∧
        (import_arrivals_go os nows i db rows).1.skipped = 0 ∧
        (import_arrivals_go os nows i db rows).1.errors = [] := by
  intro rows
  induction rows with
  | nil =>
    intro i db _ _
    exact ⟨[], by simp [import_arrivals_go],
      rfl, by intro c hcm; exact absurd hcm (List.not_mem_nil c), rfl, rfl, rfl⟩
  | cons r rest ih =>
    intro i db hp hf
    have hfr : get_car_by_vin db r.vin = none := hf r (List.mem_cons_self r rest)
    have hcr := create_car_ok_eq (os i) db ⟨r.vin, r.model, r.color, r.purchase_price, r.date⟩
      (nows i) hfr (hok i 0) (hok i 1)
    have hfresh1 : ∀ r' ∈ rest,
        get_car_by_vin (createdDB db ⟨r.vin, r.model, r.color, r.purchase_price, r.date⟩
          (nows i)) r'.vin = none := by
      intro r' hr'
      have hbase : db.cars.find? (fun c => c.vin == r'.vin) = none := by
        simpa [get_car_by_vin] using hf r' (List.mem_cons_of_mem _ hr')
      have hne : (mkNewCar db ⟨r.vin, r.model, r.color, r.purchase_price, r.date⟩).vin ≠ r'.vin := by
        have := (List.pairwise_cons.mp hp).1 r' hr'
        simpa [mkNewCar] using this
      unfold get_car_by_vin createdDB
      dsimp only
      exact find?_vin_append_none db.cars _ r'.vin hbase hne
    obtain ⟨newCars, hcars, hlen, hstat, himp, hskip, herr⟩ :=
      ih (i + 1) (createdDB db ⟨r.vin, r.model, r.color, r.purchase_price, r.date⟩ (nows i))
        (List.pairwise_cons.mp hp).2 hfresh1
    unfold import_arrivals_go
    rw [hfr, hcr]
    dsimp only
    cases hrec : import_arrivals_go os nows (i + 1)
        (createdDB db ⟨r.vin, r.model, r.color, r.purchase_price, r.date⟩ (nows i)) rest with
    | mk res db2 =>
      rw [hrec] at hcars himp hskip herr
      dsimp only at hcars himp hskip herr
      refine ⟨mkNewCar db ⟨r.vin, r.model, r.color, r.purchase_price, r.date⟩ :: newCars,
        ?_, ?_, ?_, ?_, ?_, ?_⟩
      · simpa [createdDB, List.append_assoc] using hcars
      · simpa using hlen
      · intro c hcm
        rcases List.mem_cons.mp hcm with hh | hh
        · subst hh
          rfl
        · exact hstat c hh
      · simp [himp]
      · simp [hskip]
      · simp [herr]

/-- Claim C8 (confirmed): importing an arrivals file whose rows all pass
validation (the parse phase succeeds with no row errors), whose VINs are
pairwise distinct and none of which is already stored, yields
imported == N, skipped == 0 and no import errors, and afterwards exactly
N new cars exist, each with the forced status «на складе» (in_stock). -/
theorem import_arrivals_round_trip (lines : List String) (pr : FileLoadResult ArrivalRow)
    (hparse : parse_arrivals_file (some lines) = .ok pr) (herr : pr.errors = [])
    (os : Nat → Oracle) (nows : Nat → DT) (db : DB)
    (hok : ∀ j k, os j k = true)
    (hdist : pr.data.Pairwise (fun a b => a.vin ≠ b.vin))
    (hfresh : ∀ r ∈ pr.data, get_car_by_vin db r.vin = none) :
    (import_arrivals os nows db pr.data).1.imported = pr.data.length ∧
    (import_arrivals os nows db pr.data).1.skipped = 0 ∧
    (import_arrivals os nows db pr.data).1.errors = [] ∧
    ∃ newCars : List Car,
      (import_arrivals os nows db pr.data).2.cars = db.cars ++ newCars ∧
      newCars.length = pr.data.length ∧
      ∀ c ∈ newCars, c.status = "на складе" := by
  obtain ⟨newCars, hcars, hlen, hstat, himp, hskip, herr2⟩ :=
    import_arrivals_go_fresh os nows hok pr.data 0 db hdist hfresh
  exact ⟨himp, hskip, herr2, newCars, hcars, hlen, hstat⟩

/-- Witness for C8: the two valid rows of the concrete arrivals file
exLines8 both import into the empty store as cars «на складе». -/
theorem import_arrivals_round_trip_witness :
    (import_arrivals okOs nows0 dbEmpty exData8).1.imported = exData8.length ∧
    (import_arrivals okOs nows0 dbEmpty exData8).1.skipped = 0 ∧
    (import_arrivals okOs nows0 dbEmpty exData8).1.errors = [] ∧
    ∃ newCars : List Car,
      (import_arrivals okOs nows0 dbEmpty exData8).2.cars = dbEmpty.cars ++ newCars ∧
      newCars.length = exData8.length ∧
      ∀ c ∈ newCars, c.status = "на складе" :=
  import_arrivals_round_trip exLines8 ⟨true, exData8, []⟩ (by decide) rfl okOs nows0 dbEmpty
    (fun _ _ => rfl) (by decide) (by decide)

/-- Claim C9 (code_bug): a data row with more fields than the header row
makes csv.DictReader store the extras under the None restkey, on which
the row comprehension of parse_arrivals_file calls None.strip() and
raises an uncaught AttributeError (the except clause catches OSError
only).  The whole parse aborts with no FileLoadResult and no per-row
error, and every other row of the file is lost — the same valid second
row parses fine when the malformed row is removed. -/
theorem parse_overlong_row_aborts :
    parse_arrivals_file (some ["date;model;color;vin;purchase_price",
      "2024-01-10;Sedan;Black;1HGCM82633A123456;100;EXTRA"]) = .error .attributeError ∧
    parse_arrivals_file (some ["date;model;color;vin;purchase_price",
      "2024-01-10;Sedan;Black;1HGCM82633A123456;100;EXTRA",
      "2024-01-11;Coupe;Red;2HGCM82633A123457;90"]) = .error .attributeError ∧
    parse_arrivals_file (some ["date;model;color;vin;purchase_price",
      "2024-01-11;Coupe;Red;2HGCM82633A123457;90"]) =
      .ok ⟨true, [⟨⟨2024, 1, 11⟩, "Coupe", "Red", "2HGCM82633A123457", 90⟩], []⟩ :=
  ⟨by decide, by decide, by decide⟩

/-- Claim C10 (confirmed): process_file keys the import phase on the
parsed data list alone — the parse success flag is never consulted, so
recorded row errors do not suppress the import of the valid rows — and a
parse yielding zero valid rows skips the import phase entirely,
reporting imported = 0, skipped = 0 and no import errors. -/
theorem process_file_import_gating :
    (∀ (os : Nat → Oracle) (nows : Nat → DT) (db : DB) (file : Option (List String))
       (pr : FileLoadResult ArrivalRow), parse_arrivals_file file = .ok pr → pr.data ≠ [] →
       process_file os nows db file "arrivals" =
         (.ok ⟨⟨pr.success, pr.data.length, pr.errors⟩, (import_arrivals os nows db pr.data).1⟩,
          (import_arrivals os nows db pr.data).2)) ∧
    (∀ (os : Nat → Oracle) (nows : Nat → DT) (db : DB) (file : Option (List String))
       (pr : FileLoadResult ArrivalRow), parse_arrivals_file file = .ok pr → pr.data = [] →
       process_file os nows db file "arrivals" =
         (.ok ⟨⟨pr.success, 0, pr.errors⟩, emptyImport⟩, db)) ∧
    (∀ (os : Nat → Oracle) (nows : Nat → DT) (db : DB) (file : Option (List String))
       (pr : FileLoadResult MovementRow) (ir : ImportResult) (db1 : DB),
       parse_movements_file file = .ok pr → pr.data ≠ [] →
       import_movements os db pr.data = (.ok ir, db1) →
       process_file os nows db file "movements" =
         (.ok ⟨⟨pr.success, pr.data.length, pr.errors⟩, ir⟩, db1)) ∧
    (∀ (os : Nat → Oracle) (nows : Nat → DT) (db : DB) (file : Option (List String))
       (pr : FileLoadResult MovementRow), parse_movements_file file = .ok pr → pr.data = [] →
       process_file os nows db file "movements" =
         (.ok ⟨⟨pr.success, 0, pr.errors⟩, emptyImport⟩, db)) ∧
    (∀ (os : Nat → Oracle) (nows : Nat → DT) (db : DB) (file : Option (List String))
       (pr : FileLoadResult SaleRow) (ir : ImportResult) (db1 : DB),
       parse_sales_file file = .ok pr → pr.data ≠ [] →
       import_sales os nows db pr.data = (.ok ir, db1) →
       process_file os nows db file "sales" =
         (.ok ⟨⟨pr.success, pr.data.length, pr.errors⟩, ir⟩, db1)) ∧
    (∀ (os : Nat → Oracle) (nows : Nat → DT) (db : DB) (file : Option (List String))
       (pr : FileLoadResult SaleRow), parse_sales_file file = .ok pr → pr.data = [] →
       process_file os nows db file "sales" =
         (.ok ⟨⟨pr.success, 0, pr.errors⟩, emptyImport⟩, db)) := by
  refine ⟨?_, ?_, ?_, ?_, ?_, ?_⟩
  · intro os nows db file pr hp hd
    unfold process_file
    simp only [show pyStrip (pyLower "arrivals") = "arrivals" from rfl]
    rw [hp]
    have hde : pr.data.isEmpty = false := by
      cases hdd : pr.data
      · exact absurd hdd hd
      · rfl
    cases hir : import_arrivals os nows db pr.data with
    | mk ir db1 => simp [hde, hir]
  · intro os nows db file pr hp hd
    unfold process_file
    simp only [show pyStrip (pyLower "arrivals") = "arrivals" from rfl]
    rw [hp]
    simp [hd]
  · intro os nows db file pr ir db1 hp hd him
    unfold process_file
    simp only [show pyStrip (pyLower "movements") = "movements" from rfl]
    rw [hp]
    have hde : pr.data.isEmpty = false := by
      cases hdd : pr.data
      · exact absurd hdd hd
      · rfl
    simp [hde, him]
  · intro os nows db file pr hp hd
    unfold process_file
    simp only [show pyStrip (pyLower "movements") = "movements" from rfl]
    rw [hp]
    simp [hd]
  · intro os nows db file pr ir db1 hp hd him
    unfold process_file
    simp only [show pyStrip (pyLower "sales") = "sales" from rfl]
    rw [hp]
    have hde : pr.data.isEmpty = false := by
      cases hdd : pr.data
      · exact absurd hdd hd
      · rfl
    simp [hde, him]
  · intro os nows db file pr hp hd
    unfold process_file
    simp only [show pyStrip (pyLower "sales") = "sales" from rfl]
    rw [hp]
    simp [hd]

/-- Witness for C10: processing the concrete arrivals file exLines10 (one
malformed row, one valid row) runs the import on the valid row even
though the parse phase recorded a row error (success = false). -/
theorem process_file_import_gating_witness :
    process_file okOs nows0 dbEmpty (some exLines10) "arrivals" =
      (.ok ⟨⟨exParsed10.success, exParsed10.data.length, exParsed10.errors⟩,
        (import_arrivals okOs nows0 dbEmpty exParsed10.data).1⟩,
       (import_arrivals okOs nows0 dbEmpty exParsed10.data).2) :=
  process_file_import_gating.1 okOs nows0 dbEmpty (some exLines10) exParsed10
    (by decide) (by decide)
